import Mathlib

/-!
Shallow embedding of the ZHVI choropleth application core (src/js/app.js).

Prices and price bounds are modelled as exact rationals; JavaScript's
special values (NaN, Infinity, -Infinity), which arise in getColor's
normalization when the price range is degenerate, are modelled explicitly
by the JSNum type.  Stateful code is modelled by explicit state passing on
an AppState structure mirroring the mutable AppState object of app.js; the
async renderState function is split at its await point into a synchronous
prefix (renderStateStart) and the continuation that runs when the geometry
fetch settles (renderStateFinish), so that interleavings of two concurrent
renderState calls can be expressed as function compositions.
-/

namespace ZHVI

/-- Model of a JavaScript number as far as the color-scale code needs it:
either a finite rational or one of the special values NaN, Infinity,
-Infinity produced by division by zero. -/
inductive JSNum where
  | nan : JSNum
  | inf : JSNum
  | ninf : JSNum
  | num : ℚ → JSNum
deriving DecidableEq, Repr

/-- JavaScript division of two finite numbers: division by zero yields
NaN (0/0), Infinity (positive/0) or -Infinity (negative/0). -/
def jsDiv (a b : ℚ) : JSNum :=
  if b = 0 then
    if a = 0 then JSNum.nan else if 0 < a then JSNum.inf else JSNum.ninf
  else JSNum.num (a / b)

/-- JavaScript multiplication of a number by a natural-number constant
(the palette length): NaN propagates, Infinity times 0 is NaN. -/
def jsMulNat : JSNum → ℕ → JSNum
  | JSNum.nan, _ => JSNum.nan
  | JSNum.inf, n => if n = 0 then JSNum.nan else JSNum.inf
  | JSNum.ninf, n => if n = 0 then JSNum.nan else JSNum.ninf
  | JSNum.num q, n => JSNum.num (q * n)

/-- JavaScript Math.floor: NaN and the infinities are returned unchanged. -/
def jsFloor : JSNum → JSNum
  | JSNum.nan => JSNum.nan
  | JSNum.inf => JSNum.inf
  | JSNum.ninf => JSNum.ninf
  | JSNum.num q => JSNum.num (⌊q⌋ : ℤ)

/-- JavaScript Math.min against a finite constant: NaN absorbs. -/
def jsMinC : JSNum → ℚ → JSNum
  | JSNum.nan, _ => JSNum.nan
  | JSNum.inf, c => JSNum.num c
  | JSNum.ninf, _ => JSNum.ninf
  | JSNum.num q, c => JSNum.num (min q c)

/-- JavaScript Math.max with a finite constant on the left: NaN absorbs. -/
def jsMaxC (c : ℚ) : JSNum → JSNum
  | JSNum.nan => JSNum.nan
  | JSNum.inf => JSNum.inf
  | JSNum.ninf => JSNum.num c
  | JSNum.num q => JSNum.num (max c q)

/-- JavaScript array indexing COLORS[i]: defined (some) exactly when the
index is a non-negative integer within bounds; any other index, in
particular NaN, yields undefined (none). -/
def jsGet (colors : List String) : JSNum → Option String
  | JSNum.num q =>
      if q.den = 1 ∧ 0 ≤ q.num then colors[q.num.toNat]? else none
  | _ => none

/-- Bucket-index computation of getColor (app.js lines 215-218):
normalized = (price - min) / (max - min);
index = Math.min(Math.floor(normalized * COLORS.length), COLORS.length - 1);
then Math.max(0, index). -/
def bucketIndex (len : ℕ) (mn mx price : ℚ) : JSNum :=
  jsMaxC 0 (jsMinC (jsFloor (jsMulNat (jsDiv (price - mn) (mx - mn)) len)) ((len : ℚ) - 1))

/-- getColor (app.js lines 212-219).  The COLORS palette and
AppState.priceRange are passed explicitly.  A falsy (zero) price returns
the fixed no-data color; otherwise the clamped bucket index selects from
the palette, and an out-of-range or NaN index yields undefined (none). -/
def getColor (colors : List String) (priceRange : ℚ × ℚ) (price : ℚ) : Option String :=
  if price = 0 then some "#6b7280"
  else jsGet colors (bucketIndex colors.length priceRange.1 priceRange.2 price)

/-- Closed-form value of the bucket index in the non-degenerate case,
used to analyse bucketIndex: the floor of the normalized position scaled
by the palette size, clamped into the interval from 0 to len - 1. -/
def bucketNat (len : ℕ) (mn mx price : ℚ) : ℕ :=
  min (⌊(price - mn) / (mx - mn) * len⌋).toNat (len - 1)

/-- Result record of calculatePriceRange (app.js lines 241-269), with the
field names of the source object literal. -/
structure PriceRange where
  min : ℚ
  max : ℚ
  median : ℚ
  lowest : ℚ
  highest : ℚ
  count : ℕ
deriving DecidableEq, Repr

/-- Core of calculatePriceRange (app.js lines 255-268): given the
collected positive prices, either the fixed empty fallback or the sorted
percentile picks.  The source sorts with (a, b) => a - b; since a sorted
permutation of a list over a linear order is unique, insertionSort gives
the identical array. -/
def calculatePriceRangeOfPrices (prices : List ℚ) : PriceRange :=
  if prices.length = 0 then
    { min := 0, max := 1000000, median := 0, lowest := 0, highest := 0, count := 0 }
  else
    let sorted := prices.insertionSort (· ≤ ·)
    { min := sorted.getD (prices.length * 5 / 100) 0
      max := sorted.getD (prices.length * 95 / 100) 0
      median := sorted.getD (prices.length * 50 / 100) 0
      lowest := sorted.getD 0 0
      highest := sorted.getD (prices.length - 1) 0
      count := prices.length }

/-- One CSV row of AppState.zhviData: the mapping from year to price, as
an association list.  A missing or empty cell is an absent key; parseFloat
is absorbed by storing the parsed rational directly. -/
abbrev Row : Type := List (Int × ℚ)

/-- AppState.zhviData: ZIP code (5-character string) to row. -/
abbrev ZhviData : Type := List (String × Row)

/-- JavaScript object lookup data[year] on a row. -/
def rowLookup (row : Row) (year : Int) : Option ℚ :=
  (List.find? (fun e => e.1 == year) row).map (fun e => e.2)

/-- JavaScript object lookup AppState.zhviData[zip]. -/
def zhviLookup (zhvi : ZhviData) (zip : String) : Option Row :=
  (List.find? (fun e => e.1 == zip) zhvi).map (fun e => e.2)

/-- Geometry set for one region: the fetched GeoJSON.  The tag identifies
the fetched object (and the Leaflet layer built from it); features lists
the ZCTA5CE10 property of each polygon feature in order. -/
structure Geo where
  tag : String
  features : List String
deriving DecidableEq, Repr

/-- Price-collection loop of calculatePriceRange (app.js lines 242-253):
for each feature, if the ZIP has a row and the row has a truthy entry for
the year that parses to a positive number, push it. -/
def extractPrices (zhvi : ZhviData) (year : Int) (features : List String) : List ℚ :=
  features.filterMap (fun zip =>
    match zhviLookup zhvi zip with
    | some row =>
        match rowLookup row year with
        | some p => if 0 < p then some p else none
        | none => none
    | none => none)

/-- calculatePriceRange (app.js lines 241-269): collect the prices of the
features of the given GeoJSON for the given year, then compute the range. -/
def calculatePriceRange (zhvi : ZhviData) (year : Int) (geojson : Geo) : PriceRange :=
  calculatePriceRangeOfPrices (extractPrices zhvi year geojson.features)

/-- Price-collection loop of calculateNationalPriceRanges (app.js lines
159-168): over all rows of zhviData in order. -/
def nationalPrices (zhvi : ZhviData) (year : Int) : List ℚ :=
  zhvi.filterMap (fun e =>
    match rowLookup e.2 year with
    | some p => if 0 < p then some p else none
    | none => none)

/-- AppState.nationalPriceRange after calculateNationalPriceRanges
(app.js lines 157-181) has run: the loop assigns a value to exactly the
keys 2000 to 2025; a year with price data gets the 5th and 95th
percentiles of the sorted national prices, a year without gets the
fallback of min 50000 and max 1000000; any other key is absent. -/
def nationalPriceRange (zhvi : ZhviData) (year : Int) : Option (ℚ × ℚ) :=
  if 2000 ≤ year ∧ year ≤ 2025 then
    let prices := nationalPrices zhvi year
    if 0 < prices.length then
      let sorted := prices.insertionSort (· ≤ ·)
      some (sorted.getD (prices.length * 5 / 100) 0, sorted.getD (prices.length * 95 / 100) 0)
    else some (50000, 1000000)
  else none

/-- AppState.scaleMode: the strings "state" and "national". -/
inductive ScaleMode where
  | state : ScaleMode
  | national : ScaleMode
deriving DecidableEq, Repr

/-- The mutable AppState object of app.js (lines 12-25), restricted to
the fields the core logic reads or writes.  The Leaflet map is modelled
by the list of layer tags currently added to it; playInterval records
whether an interval timer is scheduled; nationalPriceRange is derived
from zhviData (it is computed once from it and never mutated); fetchCount
instruments the number of geometry fetches issued. -/
structure AppState where
  currentLayer : Option String
  currentGeoJSON : Option Geo
  zhviData : ZhviData
  currentYear : Int
  currentState : Option String
  isPlaying : Bool
  playInterval : Bool
  priceRange : ℚ × ℚ
  scaleMode : ScaleMode
  mapLayers : List String
  fetchCount : ℕ
deriving DecidableEq, Repr

/-- Scale-mode branch of applyPriceRange (app.js lines 380-388): the pair
stored into AppState.priceRange, as a function of the data, year, mode
and the just-computed state range. -/
def activeRange (zhvi : ZhviData) (year : Int) (mode : ScaleMode)
    (stateRange : PriceRange) : ℚ × ℚ :=
  if mode = ScaleMode.national ∧ (nationalPriceRange zhvi year).isSome then
    (nationalPriceRange zhvi year).getD (0, 0)
  else (stateRange.min, stateRange.max)

/-- applyPriceRange (app.js lines 380-396): store the active range into
AppState.priceRange.  The legend and stats updates touch only the DOM. -/
def applyPriceRange (stateRange : PriceRange) (st : AppState) : AppState :=
  { st with priceRange := activeRange st.zhviData st.currentYear st.scaleMode stateRange }

/-- Synchronous prefix of renderState (app.js lines 414-427), up to the
await of loadStateGeoJSON: bail out on a falsy state abbreviation, record
currentState, remove the existing layer from the map and null the
reference; loadStateGeoJSON then issues the fetch exactly when the
abbreviation is a key of STATES (otherwise it returns null at once). -/
def renderStateStart (states : List String) (r : String) (st : AppState) : AppState :=
  if r = "" then st
  else
    let st1 : AppState :=
      { st with
        currentState := some r
        mapLayers := match st.currentLayer with
          | some l => st.mapLayers.erase l
          | none => st.mapLayers
        currentLayer := none }
    if r ∈ states then { st1 with fetchCount := st1.fetchCount + 1 } else st1

/-- Continuation of renderState (app.js lines 428-448) run when the
geometry fetch of loadStateGeoJSON settles.  A failed fetch is caught
inside loadStateGeoJSON, which resolves to null, and renderState then
returns with no further state change; on success the fetched GeoJSON is
cached, the layer is built from it, the price range is computed for the
current year and applied, and the layer is added to the map. -/
def renderStateFinish (geo : Option Geo) (st : AppState) : AppState :=
  match geo with
  | none => st
  | some g =>
      let st1 : AppState := { st with currentGeoJSON := some g, currentLayer := some g.tag }
      let stateRange := calculatePriceRange st1.zhviData st1.currentYear g
      let st2 := applyPriceRange stateRange st1
      { st2 with mapLayers := st2.mapLayers ++ [g.tag] }

/-- updateYear (app.js lines 456-467): store parseInt(year) into
AppState.currentYear unconditionally; when both a layer and a cached
GeoJSON are present, recompute the price range from the cache and restyle
(the restyle itself only repaints features from the stored state). -/
def updateYear (y : Int) (st : AppState) : AppState :=
  let st1 : AppState := { st with currentYear := y }
  match st1.currentLayer, st1.currentGeoJSON with
  | some _, some g => applyPriceRange (calculatePriceRange st1.zhviData st1.currentYear g) st1
  | _, _ => st1

/-- setScaleMode (app.js lines 474-487): store the mode unconditionally;
when both a layer and a cached GeoJSON are present, recompute the price
range from the cache and restyle. -/
def setScaleMode (m : ScaleMode) (st : AppState) : AppState :=
  let st1 : AppState := { st with scaleMode := m }
  match st1.currentLayer, st1.currentGeoJSON with
  | some _, some g => applyPriceRange (calculatePriceRange st1.zhviData st1.currentYear g) st1
  | _, _ => st1

/-- togglePlay (app.js lines 492-520): when playing, clear the interval
and stop; when stopped, start playing, rewind to 2000 if at or past 2025,
and schedule the interval timer. -/
def togglePlay (st : AppState) : AppState :=
  if st.isPlaying then
    { st with playInterval := false, isPlaying := false }
  else
    let st1 : AppState := { st with isPlaying := true }
    let st2 := if 2025 ≤ st1.currentYear then updateYear 2000 st1 else st1
    { st2 with playInterval := true }

/-- One firing of the interval callback scheduled by togglePlay (app.js
lines 512-518); it can fire only while the interval is scheduled. -/
def timerTick (st : AppState) : AppState :=
  if st.playInterval then
    if 2025 ≤ st.currentYear then togglePlay st
    else updateYear (st.currentYear + 1) st
  else st

/-- User operations available between region selections: moving the year
slider and toggling the scale mode. -/
inductive UiOp where
  | year : Int → UiOp
  | scale : ScaleMode → UiOp
deriving DecidableEq, Repr

/-- Apply one slider or scale-toggle operation to the state. -/
def applyUiOp (st : AppState) : UiOp → AppState
  | UiOp.year y => updateYear y st
  | UiOp.scale m => setScaleMode m st

/-- Run a sequence of slider and scale-toggle operations. -/
def runUiOps (ops : List UiOp) (st : AppState) : AppState :=
  ops.foldl applyUiOp st

/-- A freshly initialised AppState (app.js lines 12-25) with an empty
dataset: no layer, year 2000, state scale, not playing, no timer. -/
def stIdle : AppState :=
  { currentLayer := none
    currentGeoJSON := none
    zhviData := []
    currentYear := 2000
    currentState := none
    isPlaying := false
    playInterval := false
    priceRange := (0, 1000000)
    scaleMode := ScaleMode.state
    mapLayers := []
    fetchCount := 0 }

/-- Concrete fetched geometry for California. -/
def caGeo : Geo := { tag := "CA-geo", features := ["90001"] }

/-- Concrete fetched geometry for Texas. -/
def txGeo : Geo := { tag := "TX-geo", features := ["75001"] }

/-- Concrete fetched geometry for Wisconsin. -/
def wiGeo : Geo := { tag := "WI-geo", features := ["54301"] }

/-- The keys of the STATES registry used in the concrete scenarios. -/
def statesList : List String := ["CA", "TX", "WI", "MN"]

/-- A state in which Wisconsin has been selected and rendered. -/
def stRendered : AppState :=
  { stIdle with
    currentLayer := some "WI-geo"
    currentGeoJSON := some wiGeo
    currentState := some "WI"
    mapLayers := ["WI-geo"]
    fetchCount := 1 }

/-- The rendered Wisconsin state with the animation playing at year 2005. -/
def stPlaying : AppState :=
  { stRendered with isPlaying := true, playInterval := true, currentYear := 2005 }

/-- C1: selectRegion has no stale-response guard.  Calling
renderState("CA") and then renderState("TX") before the CA fetch
resolves, with the TX fetch resolving first and the slow CA fetch last,
commits the stale CA geometry: the final state has CA cached as
currentGeoJSON and the CA layer as currentLayer, added to the map on top
of the TX layer, even though currentState records the newer TX selection.
This refutes the claim that the stale response can never overwrite the
newer selection. -/
theorem renderState_stale_fetch_overwrites :
    (renderStateFinish (some caGeo)
      (renderStateFinish (some txGeo)
        (renderStateStart statesList "TX"
          (renderStateStart statesList "CA" stIdle)))).currentGeoJSON = some caGeo ∧
    (renderStateFinish (some caGeo)
      (renderStateFinish (some txGeo)
        (renderStateStart statesList "TX"
          (renderStateStart statesList "CA" stIdle)))).currentLayer = some "CA-geo" ∧
    (renderStateFinish (some caGeo)
      (renderStateFinish (some txGeo)
        (renderStateStart statesList "TX"
          (renderStateStart statesList "CA" stIdle)))).mapLayers = ["TX-geo", "CA-geo"] ∧
    (renderStateFinish (some caGeo)
      (renderStateFinish (some txGeo)
        (renderStateStart statesList "TX"
          (renderStateStart statesList "CA" stIdle)))).currentState = some "TX" := by
  refine ⟨rfl, rfl, rfl, rfl⟩

/-- C2 counterexample: with Wisconsin rendered, selecting Minnesota whose
fetch fails leaves no layer displayed: the WI layer was already removed
from the map during the synchronous prefix of renderState, so the
previously rendered region is not still displayed as before the call. -/
theorem renderState_fetchFail_removes_prev_layer :
    (renderStateFinish none (renderStateStart statesList "MN" stRendered)).currentLayer = none ∧
    (renderStateFinish none (renderStateStart statesList "MN" stRendered)).mapLayers = [] ∧
    stRendered.currentLayer = some "WI-geo" ∧
    stRendered.mapLayers = ["WI-geo"] ∧
    (renderStateFinish none (renderStateStart statesList "MN" stRendered)).mapLayers ≠
      stRendered.mapLayers ∧
    (renderStateFinish none (renderStateStart statesList "MN" stRendered)).currentGeoJSON =
      stRendered.currentGeoJSON := by
  refine ⟨rfl, by decide, rfl, rfl, by decide, rfl⟩

/-- C3: getColor with a degenerate range (lowerBound = upperBound =
100000) does not return one consistent well-defined bucket for positive
prices: at price exactly equal to the bound the normalization computes
0/0 = NaN, the bucket index is NaN, and COLORS[NaN] is undefined (none);
prices below the bound get bucket 0 while prices above get the last
bucket. -/
theorem getColor_degenerate_range_undefined :
    getColor ["c0", "c1", "c2"] (100000, 100000) 100000 = none ∧
    getColor ["c0", "c1", "c2"] (100000, 100000) 50000 = some "c0" ∧
    getColor ["c0", "c1", "c2"] (100000, 100000) 200000 = some "c2" := by
  refine ⟨?_, ?_, ?_⟩ <;>
    norm_num [getColor, bucketIndex, jsDiv, jsMulNat, jsFloor, jsMinC, jsMaxC, jsGet]
  decide

/-- C5 counterexample: the national per-year table does not use the
empty-input fallback of calculatePriceRange.  With an empty dataset,
nationalPriceRange for year 2000 is the pair (50000, 1000000), whereas
calculatePriceRange on empty input returns min 0; the two fallbacks
disagree on the lower bound. -/
theorem nationalRange_empty_fallback_differs :
    nationalPriceRange ([] : ZhviData) 2000 = some (50000, 1000000) ∧
    calculatePriceRangeOfPrices [] =
      { min := 0, max := 1000000, median := 0, lowest := 0, highest := 0, count := 0 } ∧
    (nationalPriceRange ([] : ZhviData) 2000).getD (0, 0) ≠
      ((calculatePriceRangeOfPrices []).min, (calculatePriceRangeOfPrices []).max) := by
  refine ⟨by decide, by decide, by decide⟩

/-- C6 counterexample: updateYear does not clamp.  On the initial state,
updateYear(1990) leaves currentYear at 1990 rather than 2000, and
updateYear(2030) leaves it at 2030 rather than 2025. -/
theorem updateYear_does_not_clamp :
    (updateYear 1990 stIdle).currentYear = 1990 ∧
    (updateYear 1990 stIdle).currentYear ≠ 2000 ∧
    (updateYear 2030 stIdle).currentYear = 2030 ∧
    (updateYear 2030 stIdle).currentYear ≠ 2025 := by
  refine ⟨rfl, by decide, rfl, by decide⟩

/-- C9: pause (togglePlay while playing) does clear the interval timer,
but a new selectRegion does not: rendering Texas from the playing
Wisconsin state leaves isPlaying and the scheduled interval untouched,
and the next tick of the timer still fires and advances the year from
2005 to 2006.  This refutes the claim that any new selectRegion call
cancels the animation timer. -/
theorem renderState_does_not_cancel_timer :
    (togglePlay stPlaying).isPlaying = false ∧
    (togglePlay stPlaying).playInterval = false ∧
    (renderStateFinish (some txGeo) (renderStateStart statesList "TX" stPlaying)).isPlaying
      = true ∧
    (renderStateFinish (some txGeo) (renderStateStart statesList "TX" stPlaying)).playInterval
      = true ∧
    (timerTick (renderStateFinish (some txGeo)
      (renderStateStart statesList "TX" stPlaying))).currentYear = 2006 := by
  refine ⟨rfl, rfl, rfl, rfl, rfl⟩

/-- C2 amended: a failed geometry fetch produces no state change beyond
the synchronous prefix of renderState: the cached geometry reference,
price range, year and dataset are untouched, the error is caught inside
loadStateGeoJSON (the continuation receives null, nothing is thrown), but
the previously rendered layer has already been removed from the map and
currentLayer is null. -/
theorem renderState_fetchFail_no_corruption (sts : List String) (st : AppState) (r : String)
    (hr : r ≠ "") :
    renderStateFinish none (renderStateStart sts r st) = renderStateStart sts r st ∧
    (renderStateStart sts r st).currentGeoJSON = st.currentGeoJSON ∧
    (renderStateStart sts r st).currentLayer = none ∧
    (renderStateStart sts r st).priceRange = st.priceRange ∧
    (renderStateStart sts r st).currentYear = st.currentYear ∧
    (renderStateStart sts r st).zhviData = st.zhviData ∧
    (renderStateStart sts r st).mapLayers =
      (match st.currentLayer with
        | some l => st.mapLayers.erase l
        | none => st.mapLayers) := by
  refine ⟨rfl, ?_⟩
  unfold renderStateStart
  rw [if_neg hr]
  by_cases h : r ∈ sts <;> simp [h]

/-- Witness for the amended C2 theorem at the rendered Wisconsin state
and a failing Minnesota fetch. -/
theorem renderState_fetchFail_no_corruption_witness :
    ("MN" : String) ≠ "" ∧
    (renderStateFinish none (renderStateStart statesList "MN" stRendered) =
        renderStateStart statesList "MN" stRendered ∧
      (renderStateStart statesList "MN" stRendered).currentGeoJSON =
        stRendered.currentGeoJSON ∧
      (renderStateStart statesList "MN" stRendered).currentLayer = none ∧
      (renderStateStart statesList "MN" stRendered).priceRange = stRendered.priceRange ∧
      (renderStateStart statesList "MN" stRendered).currentYear = stRendered.currentYear ∧
      (renderStateStart statesList "MN" stRendered).zhviData = stRendered.zhviData ∧
      (renderStateStart statesList "MN" stRendered).mapLayers =
        (match stRendered.currentLayer with
          | some l => stRendered.mapLayers.erase l
          | none => stRendered.mapLayers)) :=
  ⟨by decide, renderState_fetchFail_no_corruption statesList stRendered "MN" (by decide)⟩

/-- Helper: one slider or scale-toggle operation issues no geometry fetch
and keeps the cached GeometrySet. -/
theorem applyUiOp_preserves (st : AppState) (op : UiOp) :
    (applyUiOp st op).fetchCount = st.fetchCount ∧
    (applyUiOp st op).currentGeoJSON = st.currentGeoJSON := by
  cases op with
  | year y =>
      cases hcl : st.currentLayer <;> cases hcg : st.currentGeoJSON <;>
        simp [applyUiOp, updateYear, applyPriceRange, hcl, hcg]
  | scale m =>
      cases hcl : st.currentLayer <;> cases hcg : st.currentGeoJSON <;>
        simp [applyUiOp, setScaleMode, applyPriceRange, hcl, hcg]

/-- C8: any sequence of updateYear and setScaleMode calls after a region
is rendered performs no geometry fetch and keeps the cached GeometrySet:
the fetch count and the cached GeoJSON are exactly those of the starting
state, so a region fetched once stays fetched once until a different
region is selected. -/
theorem runUiOps_no_fetch (ops : List UiOp) (st : AppState) :
    (runUiOps ops st).fetchCount = st.fetchCount ∧
    (runUiOps ops st).currentGeoJSON = st.currentGeoJSON := by
  induction ops generalizing st with
  | nil => exact ⟨rfl, rfl⟩
  | cons op rest ih =>
      have h1 := applyUiOp_preserves st op
      have h2 := ih (applyUiOp st op)
      exact ⟨h2.1.trans h1.1, h2.2.trans h1.2⟩

/-- Helper: updateYear on a state with no layer or no cached geometry
only records the year. -/
theorem updateYear_skip (y : Int) (st : AppState)
    (h : st.currentLayer = none ∨ st.currentGeoJSON = none) :
    updateYear y st = { st with currentYear := y } := by
  rcases h with h | h
  · cases hcg : st.currentGeoJSON <;> simp [updateYear, h, hcg]
  · cases hcl : st.currentLayer <;> simp [updateYear, h, hcl]

/-- Helper: setScaleMode on a state with no layer or no cached geometry
only records the mode. -/
theorem setScaleMode_skip (m : ScaleMode) (st : AppState)
    (h : st.currentLayer = none ∨ st.currentGeoJSON = none) :
    setScaleMode m st = { st with scaleMode := m } := by
  rcases h with h | h
  · cases hcg : st.currentGeoJSON <;> simp [setScaleMode, h, hcg]
  · cases hcl : st.currentLayer <;> simp [setScaleMode, h, hcl]

/-- Helper: the synchronous prefix of renderState never changes the year,
the scale mode or the dataset. -/
theorem renderStateStart_preserves (sts : List String) (r : String) (s : AppState) :
    (renderStateStart sts r s).currentYear = s.currentYear ∧
    (renderStateStart sts r s).scaleMode = s.scaleMode ∧
    (renderStateStart sts r s).zhviData = s.zhviData := by
  unfold renderStateStart
  by_cases h1 : r = ""
  · simp [h1]
  · rw [if_neg h1]
    by_cases h2 : r ∈ sts <;> simp [h2]

/-- C10: calling updateYear or setScaleMode when no region is rendered is
neither a failure nor a no-op: the year and mode are recorded while the
price range (and the map) are left alone, and a subsequent successful
selectRegion renders with the recorded year and mode. -/
theorem idle_uiOps_recorded (st : AppState) (y : Int) (m : ScaleMode)
    (h : st.currentLayer = none ∨ st.currentGeoJSON = none) :
    (updateYear y st).currentYear = y ∧
    (updateYear y st).priceRange = st.priceRange ∧
    (updateYear y st).mapLayers = st.mapLayers ∧
    (setScaleMode m st).scaleMode = m ∧
    (setScaleMode m st).priceRange = st.priceRange ∧
    (∀ sts r g,
      (renderStateFinish (some g)
        (renderStateStart sts r (setScaleMode m (updateYear y st)))).currentYear = y ∧
      (renderStateFinish (some g)
        (renderStateStart sts r (setScaleMode m (updateYear y st)))).scaleMode = m ∧
      (renderStateFinish (some g)
        (renderStateStart sts r (setScaleMode m (updateYear y st)))).priceRange =
        activeRange st.zhviData y m (calculatePriceRange st.zhviData y g)) := by
  have hu : updateYear y st = { st with currentYear := y } := updateYear_skip y st h
  have h2 : ({ st with currentYear := y } : AppState).currentLayer = none ∨
      ({ st with currentYear := y } : AppState).currentGeoJSON = none := h
  have hs : setScaleMode m (updateYear y st) =
      { st with currentYear := y, scaleMode := m } := by
    rw [hu]
    exact setScaleMode_skip m _ h2
  have hs0 : setScaleMode m st = { st with scaleMode := m } := setScaleMode_skip m st h
  refine ⟨by rw [hu], by rw [hu], by rw [hu], by rw [hs0], by rw [hs0], ?_⟩
  intro sts r g
  rw [hs]
  obtain ⟨e1, e2, e3⟩ :=
    renderStateStart_preserves sts r { st with currentYear := y, scaleMode := m }
  have hfin : ∀ (s : AppState),
      (renderStateFinish (some g) s).currentYear = s.currentYear ∧
      (renderStateFinish (some g) s).scaleMode = s.scaleMode ∧
      (renderStateFinish (some g) s).priceRange =
        activeRange s.zhviData s.currentYear s.scaleMode
          (calculatePriceRange s.zhviData s.currentYear g) :=
    fun s => ⟨rfl, rfl, rfl⟩
  obtain ⟨f1, f2, f3⟩ :=
    hfin (renderStateStart sts r { st with currentYear := y, scaleMode := m })
  refine ⟨?_, ?_, ?_⟩
  · rw [f1, e1]
  · rw [f2, e2]
  · rw [f3, e1, e2, e3]

/-- Witness for the C10 theorem at the initial state, year 2010, national
scale, and a subsequent successful Wisconsin render. -/
theorem idle_uiOps_recorded_witness :
    (stIdle.currentLayer = none ∨ stIdle.currentGeoJSON = none) ∧
    (updateYear 2010 stIdle).currentYear = 2010 ∧
    (updateYear 2010 stIdle).priceRange = stIdle.priceRange ∧
    (setScaleMode ScaleMode.national stIdle).scaleMode = ScaleMode.national ∧
    (renderStateFinish (some wiGeo)
      (renderStateStart statesList "WI"
        (setScaleMode ScaleMode.national (updateYear 2010 stIdle)))).currentYear = 2010 ∧
    (renderStateFinish (some wiGeo)
      (renderStateStart statesList "WI"
        (setScaleMode ScaleMode.national (updateYear 2010 stIdle)))).scaleMode =
      ScaleMode.national ∧
    (renderStateFinish (some wiGeo)
      (renderStateStart statesList "WI"
        (setScaleMode ScaleMode.national (updateYear 2010 stIdle)))).priceRange =
      activeRange stIdle.zhviData 2010 ScaleMode.national
        (calculatePriceRange stIdle.zhviData 2010 wiGeo) := by
  have h := idle_uiOps_recorded stIdle 2010 ScaleMode.national (Or.inl rfl)
  obtain ⟨a1, a2, _, a4, _, a6⟩ := h
  obtain ⟨b1, b2, b3⟩ := a6 statesList "WI" wiGeo
  exact ⟨Or.inl rfl, a1, a2, a4, b1, b2, b3⟩

/-- C6 amended: updateYear stores exactly the requested year with no
clamping into the 2000 to 2025 span (range enforcement is left to the
slider element); when a layer and cached geometry are present it then
recomputes the price range at the new year and restyles from the cache. -/
theorem updateYear_sets_exact_year (y : Int) (st : AppState) (l : String) (g : Geo)
    (hl : st.currentLayer = some l) (hg : st.currentGeoJSON = some g) :
    (∀ s : AppState, (updateYear y s).currentYear = y) ∧
    updateYear y st =
      applyPriceRange (calculatePriceRange st.zhviData y g) { st with currentYear := y } := by
  constructor
  · intro s
    cases hcl : s.currentLayer <;> cases hcg : s.currentGeoJSON <;>
      simp [updateYear, applyPriceRange, hcl, hcg]
  · simp [updateYear, hl, hg]

/-- Witness for the amended C6 theorem: updateYear(1990) on the rendered
Wisconsin state. -/
theorem updateYear_sets_exact_year_witness :
    stRendered.currentLayer = some "WI-geo" ∧
    stRendered.currentGeoJSON = some wiGeo ∧
    ((∀ s : AppState, (updateYear 1990 s).currentYear = 1990) ∧
      updateYear 1990 stRendered =
        applyPriceRange (calculatePriceRange stRendered.zhviData 1990 wiGeo)
          { stRendered with currentYear := 1990 }) :=
  ⟨rfl, rfl, updateYear_sets_exact_year 1990 stRendered "WI-geo" wiGeo rfl rfl⟩

/-- C5 amended: calculatePriceRange on empty input returns the fixed
fallback with lowerBound 0, upperBound 1000000, median 0 and count 0,
while the national per-year table uses a different fallback, min 50000
and max 1000000, for a year in 2000 to 2025 whose national price list is
empty. -/
theorem emptyPrices_fallbacks (zhvi : ZhviData) (year : Int)
    (h1 : 2000 ≤ year) (h2 : year ≤ 2025) (hemp : nationalPrices zhvi year = []) :
    calculatePriceRangeOfPrices [] =
      { min := 0, max := 1000000, median := 0, lowest := 0, highest := 0, count := 0 } ∧
    nationalPriceRange zhvi year = some (50000, 1000000) := by
  constructor
  · rfl
  · simp [nationalPriceRange, h1, h2, hemp]

/-- Helper: in a sorted list of rationals, entries at earlier positions
are at most entries at later positions. -/
theorem sorted_getD_le (l : List ℚ) (hs : l.Sorted (· ≤ ·)) (i j : ℕ)
    (hij : i ≤ j) (hj : j < l.length) :
    l.getD i 0 ≤ l.getD j 0 := by
  have hi : i < l.length := lt_of_le_of_lt hij hj
  rw [List.getD_eq_getElem l 0 hi, List.getD_eq_getElem l 0 hj]
  have h := hs.rel_get_of_le (a := ⟨i, hi⟩) (b := ⟨j, hj⟩) hij
  simpa [List.get_eq_getElem] using h

/-- C4: on a non-empty sequence of positive prices, calculatePriceRange
returns the sorted entries at the floor(n * 0.05), floor(n * 0.95) and
floor(n * 0.5) positions as min, max and median, the first and last
sorted entries as lowest and highest, the length as count, and these
satisfy lowest <= min <= median <= max <= highest. -/
theorem calculatePriceRange_percentiles (prices : List ℚ) (hne : prices ≠ [])
    (hpos : ∀ p ∈ prices, 0 < p) :
    calculatePriceRangeOfPrices prices =
      { min := (prices.insertionSort (· ≤ ·)).getD (prices.length * 5 / 100) 0
        max := (prices.insertionSort (· ≤ ·)).getD (prices.length * 95 / 100) 0
        median := (prices.insertionSort (· ≤ ·)).getD (prices.length * 50 / 100) 0
        lowest := (prices.insertionSort (· ≤ ·)).getD 0 0
        highest := (prices.insertionSort (· ≤ ·)).getD (prices.length - 1) 0
        count := prices.length } ∧
    (calculatePriceRangeOfPrices prices).count = prices.length ∧
    (calculatePriceRangeOfPrices prices).lowest ≤ (calculatePriceRangeOfPrices prices).min ∧
    (calculatePriceRangeOfPrices prices).min ≤ (calculatePriceRangeOfPrices prices).median ∧
    (calculatePriceRangeOfPrices prices).median ≤ (calculatePriceRangeOfPrices prices).max ∧
    (calculatePriceRangeOfPrices prices).max ≤ (calculatePriceRangeOfPrices prices).highest := by
  have hn : 0 < prices.length := List.length_pos.mpr hne
  have hnz : ¬ prices.length = 0 := Nat.pos_iff_ne_zero.mp hn
  have hslen : (prices.insertionSort (· ≤ ·)).length = prices.length :=
    List.length_insertionSort _ _
  have hsort : (prices.insertionSort (· ≤ ·)).Sorted (· ≤ ·) :=
    List.sorted_insertionSort _ _
  have hi95 : prices.length * 95 / 100 < prices.length := by
    rw [Nat.div_lt_iff_lt_mul (by norm_num)]
    omega
  have h5_50 : prices.length * 5 / 100 ≤ prices.length * 50 / 100 :=
    Nat.div_le_div_right (by omega)
  have h50_95 : prices.length * 50 / 100 ≤ prices.length * 95 / 100 :=
    Nat.div_le_div_right (by omega)
  have heq : calculatePriceRangeOfPrices prices =
      { min := (prices.insertionSort (· ≤ ·)).getD (prices.length * 5 / 100) 0
        max := (prices.insertionSort (· ≤ ·)).getD (prices.length * 95 / 100) 0
        median := (prices.insertionSort (· ≤ ·)).getD (prices.length * 50 / 100) 0
        lowest := (prices.insertionSort (· ≤ ·)).getD 0 0
        highest := (prices.insertionSort (· ≤ ·)).getD (prices.length - 1) 0
        count := prices.length } := by
    unfold calculatePriceRangeOfPrices
    rw [if_neg hnz]
  refine ⟨heq, ?_, ?_, ?_, ?_, ?_⟩ <;> rw [heq]
  · exact sorted_getD_le _ hsort 0 (prices.length * 5 / 100) (Nat.zero_le _)
      (by rw [hslen]; exact lt_of_le_of_lt (le_trans h5_50 h50_95) hi95)
  · exact sorted_getD_le _ hsort _ _ h5_50
      (by rw [hslen]; exact lt_of_le_of_lt h50_95 hi95)
  · exact sorted_getD_le _ hsort _ _ h50_95 (by rw [hslen]; exact hi95)
  · exact sorted_getD_le _ hsort _ _ (by omega) (by rw [hslen]; omega)

/-- Witness for the C4 theorem at the price list 1, 3, 2. -/
theorem calculatePriceRange_percentiles_witness :
    (([1, 3, 2] : List ℚ) ≠ []) ∧ (∀ p ∈ ([1, 3, 2] : List ℚ), 0 < p) ∧
    (calculatePriceRangeOfPrices [1, 3, 2] =
      { min := (([1, 3, 2] : List ℚ).insertionSort (· ≤ ·)).getD
          (([1, 3, 2] : List ℚ).length * 5 / 100) 0
        max := (([1, 3, 2] : List ℚ).insertionSort (· ≤ ·)).getD
          (([1, 3, 2] : List ℚ).length * 95 / 100) 0
        median := (([1, 3, 2] : List ℚ).insertionSort (· ≤ ·)).getD
          (([1, 3, 2] : List ℚ).length * 50 / 100) 0
        lowest := (([1, 3, 2] : List ℚ).insertionSort (· ≤ ·)).getD 0 0
        highest := (([1, 3, 2] : List ℚ).insertionSort (· ≤ ·)).getD
          (([1, 3, 2] : List ℚ).length - 1) 0
        count := ([1, 3, 2] : List ℚ).length } ∧
    (calculatePriceRangeOfPrices [1, 3, 2]).count = ([1, 3, 2] : List ℚ).length ∧
    (calculatePriceRangeOfPrices [1, 3, 2]).lowest ≤ (calculatePriceRangeOfPrices [1, 3, 2]).min ∧
    (calculatePriceRangeOfPrices [1, 3, 2]).min ≤ (calculatePriceRangeOfPrices [1, 3, 2]).median ∧
    (calculatePriceRangeOfPrices [1, 3, 2]).median ≤ (calculatePriceRangeOfPrices [1, 3, 2]).max ∧
    (calculatePriceRangeOfPrices [1, 3, 2]).max ≤ (calculatePriceRangeOfPrices [1, 3, 2]).highest) :=
  ⟨by simp, by norm_num,
    calculatePriceRange_percentiles [1, 3, 2] (by simp) (by norm_num)⟩

/-- Helper: array access at a natural-number index is ordinary list
indexing. -/
theorem jsGet_natCast (colors : List String) (k : ℕ) :
    jsGet colors (JSNum.num (k : ℚ)) = colors[k]? := by
  unfold jsGet
  simp [Rat.den_natCast, Rat.num_natCast]

/-- Helper: when the range is non-degenerate, the bucket index computed
by getColor is the finite natural number bucketNat, the floor of the
scaled normalized position clamped into the palette. -/
theorem bucketIndex_eq (len : ℕ) (mn mx price : ℚ) (hmn : mn < mx) :
    bucketIndex len mn mx price = JSNum.num ((bucketNat len mn mx price : ℕ) : ℚ) := by
  have hd : mx - mn ≠ 0 := sub_ne_zero.mpr (ne_of_gt hmn)
  unfold bucketIndex bucketNat jsDiv
  rw [if_neg hd]
  simp only [jsMulNat, jsFloor, jsMinC, jsMaxC]
  congr 1
  calc max (0 : ℚ) (min ((⌊(price - mn) / (mx - mn) * (len : ℚ)⌋ : ℤ) : ℚ) ((len : ℚ) - 1))
      = ((max (0 : ℤ) (min ⌊(price - mn) / (mx - mn) * (len : ℚ)⌋ ((len : ℤ) - 1)) : ℤ) : ℚ) := by
        norm_cast
    _ = ((min (⌊(price - mn) / (mx - mn) * (len : ℚ)⌋).toNat (len - 1) : ℕ) : ℚ) := by
        rw [show max (0 : ℤ) (min ⌊(price - mn) / (mx - mn) * (len : ℚ)⌋ ((len : ℤ) - 1)) =
            ((min (⌊(price - mn) / (mx - mn) * (len : ℚ)⌋).toNat (len - 1) : ℕ) : ℤ) from by omega]
        norm_cast

/-- C7: for a non-degenerate range, the bucket index of getColor is the
finite clamped value bucketNat; bucketNat is monotone non-decreasing in
the price, never exceeds the last palette position, and getColor clamps:
positive prices at or below the lower bound select the first palette
entry and prices at or above the upper bound select the last. -/
theorem getColor_monotone_clamp (colors : List String) (mn mx : ℚ)
    (hlen : 0 < colors.length) (hmn : mn < mx) :
    (∀ price : ℚ, bucketIndex colors.length mn mx price =
        JSNum.num ((bucketNat colors.length mn mx price : ℕ) : ℚ)) ∧
    (∀ p q : ℚ, 0 < p → p ≤ q →
        bucketNat colors.length mn mx p ≤ bucketNat colors.length mn mx q) ∧
    (∀ price : ℚ, bucketNat colors.length mn mx price ≤ colors.length - 1) ∧
    (∀ price : ℚ, 0 < price → price ≤ mn →
        getColor colors (mn, mx) price = colors[0]?) ∧
    (∀ price : ℚ, 0 < price → mx ≤ price →
        getColor colors (mn, mx) price = colors[colors.length - 1]?) := by
  have hd : (0 : ℚ) < mx - mn := sub_pos.mpr hmn
  refine ⟨fun price => bucketIndex_eq colors.length mn mx price hmn, ?_, ?_, ?_, ?_⟩
  · intro p q hp hpq
    have ht : (p - mn) / (mx - mn) ≤ (q - mn) / (mx - mn) := by gcongr
    have hmul : (p - mn) / (mx - mn) * (colors.length : ℚ) ≤
        (q - mn) / (mx - mn) * (colors.length : ℚ) :=
      mul_le_mul_of_nonneg_right ht (Nat.cast_nonneg _)
    exact min_le_min (Int.toNat_le_toNat (Int.floor_le_floor hmul)) le_rfl
  · intro price
    exact min_le_right _ _
  · intro price h0 hle
    have ht : (price - mn) / (mx - mn) ≤ 0 := by
      have h := mul_le_mul_of_nonneg_right
        (show price - mn ≤ 0 by linarith) (le_of_lt (inv_pos.mpr hd))
      rw [zero_mul] at h
      simpa [div_eq_mul_inv] using h
    have hm : (price - mn) / (mx - mn) * (colors.length : ℚ) ≤ 0 := by
      have h := mul_le_mul_of_nonneg_right ht (Nat.cast_nonneg (α := ℚ) colors.length)
      simpa using h
    have hb : bucketNat colors.length mn mx price = 0 := by
      unfold bucketNat
      rw [Int.toNat_eq_zero.mpr (Int.floor_nonpos hm)]
      exact Nat.zero_min _
    unfold getColor
    rw [if_neg (ne_of_gt h0)]
    have hidx := bucketIndex_eq colors.length mn mx price hmn
    simp only at hidx ⊢
    rw [hidx, hb]
    exact jsGet_natCast colors 0
  · intro price h0 hge
    have ht : (1 : ℚ) ≤ (price - mn) / (mx - mn) := (one_le_div hd).mpr (by linarith)
    have hm : (colors.length : ℚ) ≤ (price - mn) / (mx - mn) * (colors.length : ℚ) := by
      have h := mul_le_mul_of_nonneg_right ht (Nat.cast_nonneg (α := ℚ) colors.length)
      rwa [one_mul] at h
    have hfl : (colors.length : ℤ) ≤ ⌊(price - mn) / (mx - mn) * (colors.length : ℚ)⌋ :=
      Int.le_floor.mpr (by exact_mod_cast hm)
    have hb : bucketNat colors.length mn mx price = colors.length - 1 := by
      unfold bucketNat
      exact min_eq_right (by omega)
    unfold getColor
    rw [if_neg (ne_of_gt h0)]
    have hidx := bucketIndex_eq colors.length mn mx price hmn
    simp only at hidx ⊢
    rw [hidx, hb]
    exact jsGet_natCast colors (colors.length - 1)

/-- Witness for the C7 theorem at a two-color palette and the range 0 to
100. -/
theorem getColor_monotone_clamp_witness :
    0 < (["c0", "c1"] : List String).length ∧ (0 : ℚ) < 100 ∧
    ((∀ price : ℚ, bucketIndex (["c0", "c1"] : List String).length 0 100 price =
        JSNum.num ((bucketNat (["c0", "c1"] : List String).length 0 100 price : ℕ) : ℚ)) ∧
    (∀ p q : ℚ, 0 < p → p ≤ q →
        bucketNat (["c0", "c1"] : List String).length 0 100 p ≤
          bucketNat (["c0", "c1"] : List String).length 0 100 q) ∧
    (∀ price : ℚ, bucketNat (["c0", "c1"] : List String).length 0 100 price ≤
        (["c0", "c1"] : List String).length - 1) ∧
    (∀ price : ℚ, 0 < price → price ≤ 0 →
        getColor ["c0", "c1"] (0, 100) price = (["c0", "c1"] : List String)[0]?) ∧
    (∀ price : ℚ, 0 < price → 100 ≤ price →
        getColor ["c0", "c1"] (0, 100) price =
          (["c0", "c1"] : List String)[(["c0", "c1"] : List String).length - 1]?)) :=
  ⟨by decide, by norm_num, getColor_monotone_clamp ["c0", "c1"] 0 100 (by decide) (by norm_num)⟩

/-- Witness for the amended C5 theorem at the empty dataset and year 2000. -/
theorem emptyPrices_fallbacks_witness :
    (2000 : Int) ≤ 2000 ∧ (2000 : Int) ≤ 2025 ∧
    nationalPrices ([] : ZhviData) 2000 = [] ∧
    (calculatePriceRangeOfPrices [] =
      { min := 0, max := 1000000, median := 0, lowest := 0, highest := 0, count := 0 } ∧
    nationalPriceRange ([] : ZhviData) 2000 = some (50000, 1000000)) :=
  ⟨by decide, by decide, rfl,
    emptyPrices_fallbacks [] 2000 (by decide) (by decide) rfl⟩

end ZHVI
